import Mathlib

/-!
Shallow embedding of the OTP authentication flow of the urbanestaserver
repository: the 2Factor gateway client (`TwoFactorService`, file
src/unnamed/part_001) and the `POST /send-otp` / `POST /verify-otp` route
handlers (src/routes/usersRoutes.js).

Conventions of the embedding:
* JS strings are Lean `String`s; a missing / `undefined` / empty request field
  is modelled as `""` (both are falsy under the `!x` / `x ||` tests the code
  uses on these fields).
* Timestamps (`Date.now()`, `createdAt`) are naturals counting milliseconds.
  The JS comparison `session.createdAt < new Date(Date.now() - 10*60*1000)`
  is rendered as `session.createdAt + 10 * 60 * 1000 < now`, which agrees
  with it on all integer timestamps.
* The in-memory `Map` `otpSessions` is a partial map `String → Option Session`.
* Outbound effects (axios calls to the 2Factor API, Mongoose `save`,
  `generateToken`) are injected as parameters: gateway answers are explicit
  data, and each fallible persistence step gets a Boolean saying whether it
  throws; a throw transfers control to the handler's `catch` block exactly as
  in the source.
-/

/-! ### Phone number formatting (TwoFactorService) -/

/-- JS `phoneNumber.replace(/\D/g, '')`: keep only the decimal digits. -/
def digitsOnly (s : String) : String := ⟨s.data.filter Char.isDigit⟩

/-- JS `String.prototype.startsWith`. -/
def jsStartsWith (s p : String) : Bool := decide (s.data.take p.data.length = p.data)

/-- `TwoFactorService.formatPhoneNumber` (src/unnamed/part_001, lines 202-223):
the `+`-prefixed storage form of a phone number. -/
def formatPhoneNumber (phoneNumber : String) : String :=
  let cleaned := digitsOnly phoneNumber
  if jsStartsWith cleaned "91" then "+" ++ cleaned
  else if cleaned.length = 10 then "+91" ++ cleaned
  else if jsStartsWith phoneNumber "+" then phoneNumber
  else "+" ++ cleaned

/-- `TwoFactorService.formatPhoneForAPI` (src/unnamed/part_001, lines 230-246):
the country-code form without `+` used in the gateway URL. -/
def formatPhoneForAPI (phoneNumber : String) : String :=
  let cleaned := digitsOnly phoneNumber
  if jsStartsWith cleaned "91" then cleaned
  else if cleaned.length = 10 then "91" ++ cleaned
  else cleaned

/-! ### OTP gateway client (TwoFactorService.sendOTP and helpers) -/

/-- Body of a 2Factor API JSON response (`response.data`), with the fields the
client reads. -/
structure GwData where
  Status : String
  Details : String
deriving DecidableEq

/-- Outcome of one `axios.get` against the gateway: an HTTP response carrying a
JSON body, or a thrown error carrying `error.response?.data?.Details`
(empty when absent) and `error.message`. -/
inductive GwCall where
  | ok (data : GwData)
  | err (respDetails : String) (message : String)
deriving DecidableEq

/-- Result shape of one delivery attempt (`sendSMSOTP` / `sendVoiceOTP`). -/
structure AttemptResult where
  success : Bool
  sessionId : String
  error : String
deriving DecidableEq

/-- `TwoFactorService.sendSMSOTP` (src/unnamed/part_001, lines 94-119),
as a function of the axios outcome. -/
def sendSMSOTP (call : GwCall) : AttemptResult :=
  match call with
  | .ok d =>
    if d.Status = "Success" then ⟨true, d.Details, ""⟩
    else ⟨false, "", if d.Details ≠ "" then d.Details else "SMS delivery failed"⟩
  | .err respDetails message =>
    ⟨false, "",
      if respDetails ≠ "" then respDetails
      else if message ≠ "" then message else "SMS API error"⟩

/-- `TwoFactorService.sendVoiceOTP` (src/unnamed/part_001, lines 126-150),
as a function of the axios outcome. -/
def sendVoiceOTP (call : GwCall) : AttemptResult :=
  match call with
  | .ok d =>
    if d.Status = "Success" then ⟨true, d.Details, ""⟩
    else ⟨false, "", if d.Details ≠ "" then d.Details else "Voice delivery failed"⟩
  | .err respDetails message =>
    ⟨false, "",
      if respDetails ≠ "" then respDetails
      else if message ≠ "" then message else "Voice API error"⟩

/-- Result shape of `TwoFactorService.sendOTP`. -/
structure SendOtpResult where
  success : Bool
  sessionId : String
  message : String
  type : String
  dbFormattedPhone : String
  fallback : Bool
  error : String
deriving DecidableEq

/-- `TwoFactorService.sendOTP` (src/unnamed/part_001, lines 30-87). The two
`GwCall` arguments are the answers the gateway would give to the SMS attempt
and to the voice attempt. The second component of the result records, in
order, the delivery calls actually made, as (channel, destination) pairs. -/
def sendOTP (phoneNumber : String) (smsCall voiceCall : GwCall) :
    SendOtpResult × List (String × String) :=
  if phoneNumber = "" then
    (⟨false, "", "", "", "", false, "Phone number is required and must be a string"⟩, [])
  else
    let apiFormattedPhone := formatPhoneForAPI phoneNumber
    let dbFormattedPhone := formatPhoneNumber phoneNumber
    let smsResult := sendSMSOTP smsCall
    if smsResult.success then
      (⟨true, smsResult.sessionId, "SMS OTP sent successfully", "sms",
        dbFormattedPhone, false, ""⟩,
        [("sms", apiFormattedPhone)])
    else
      let voiceResult := sendVoiceOTP voiceCall
      if voiceResult.success then
        (⟨true, voiceResult.sessionId,
          "Unable to send SMS OTP. Voice OTP has been sent to your number.", "voice",
          dbFormattedPhone, true, ""⟩,
          [("sms", apiFormattedPhone), ("voice", apiFormattedPhone)])
      else
        (⟨false, "", "", "", "", false,
          "Unable to send OTP. SMS error: " ++ smsResult.error ++ ". Voice error: " ++
            voiceResult.error⟩,
          [("sms", apiFormattedPhone), ("voice", apiFormattedPhone)])

/-! ### OTP session store (the `otpSessions` Map in usersRoutes.js) -/

/-- One entry of the `otpSessions` map, with the fields stored at creation
(src/routes/usersRoutes.js, lines 149-161). -/
structure Session where
  phoneNumber : String
  phone : String
  name : String
  city : String
  propertyId : String
  propertyName : String
  propertyUrl : String
  createdAt : Nat
  attempts : Nat
  verified : Bool
  otpType : String
deriving DecidableEq

abbrev Store := String → Option Session

/-- `otpSessions.get(k)`. -/
def storeGet (st : Store) (k : String) : Option Session := st k

/-- `otpSessions.set(k, v)`. -/
def storeSet (st : Store) (k : String) (v : Session) : Store :=
  fun q => if q = k then some v else st q

/-- `otpSessions.delete(k)`. -/
def storeDelete (st : Store) (k : String) : Store :=
  fun q => if q = k then none else st q

def emptyStore : Store := fun _ => none

/-- The clean-up loop of POST /send-otp (lines 163-169): delete every session
with `createdAt` strictly older than ten minutes before `now`. -/
def sweepOld (now : Nat) (st : Store) : Store :=
  fun q =>
    match st q with
    | some s => if s.createdAt + 10 * 60 * 1000 < now then none else some s
    | none => none

/-! ### POST /send-otp (src/routes/usersRoutes.js, lines 126-193) -/

/-- Request body of POST /send-otp. -/
structure SendReq where
  phone : String
  name : String
  city : String
  propertyId : String
  propertyName : String
  propertyUrl : String
deriving DecidableEq

/-- Observable outcome of one POST /send-otp call: the session store after the
call, the HTTP response, and whether `twoFactorService.sendOTP` was reached. -/
structure SendOutcome where
  store : Store
  status : Nat
  success : Bool
  message : String
  sessionIdOut : Option String
  gatewayCalled : Bool

/-- The POST /send-otp handler. `result` is the awaited value of
`twoFactorService.sendOTP(phoneNumber)`; `gatewayCalled` records whether
execution reached that call. -/
def sendOtpRoute (now : Nat) (req : SendReq) (st : Store) (result : SendOtpResult) :
    SendOutcome :=
  if req.phone = "" ∨ req.phone.length ≠ 10 then
    ⟨st, 400, false, "Please provide a valid 10-digit phone number", none, false⟩
  else if result.success then
    let sess : Session :=
      { phoneNumber :=
          if result.dbFormattedPhone ≠ "" then result.dbFormattedPhone
          else "+91" ++ req.phone
        phone := req.phone
        name := req.name
        city := req.city
        propertyId := req.propertyId
        propertyName := req.propertyName
        propertyUrl := req.propertyUrl
        createdAt := now
        attempts := 0
        verified := false
        otpType := if result.type ≠ "" then result.type else "sms" }
    ⟨sweepOld now (storeSet st result.sessionId sess), 200, true,
      "OTP sent successfully to your mobile number", some result.sessionId, true⟩
  else
    ⟨st, 500, false,
      if result.error ≠ "" then result.error else "Failed to send OTP. Please try again.",
      none, true⟩

/-! ### POST /verify-otp (src/routes/usersRoutes.js, lines 196-383) -/

/-- Request body of POST /verify-otp. -/
structure VerifyReq where
  sessionId : String
  otp : String
  name : String
  city : String
  propertyId : String
  propertyName : String
  propertyUrl : String
  source : String
deriving DecidableEq

/-- A persisted user document, with the fields this flow reads and writes. -/
structure UserRec where
  name : String
  phoneNumber : String
  city : String
  email : Option String
  lastLogin : Nat
deriving DecidableEq

abbrev UserDb := List UserRec

/-- `User.findOne({ phoneNumber })`. -/
def findUserByPhone (db : UserDb) (ph : String) : Option UserRec :=
  db.find? (fun u => u.phoneNumber == ph)

/-- Persisting `user.save()` on an existing document: replace the (first)
record with the given phone number. -/
def updateUserByPhone (db : UserDb) (ph : String) (u : UserRec) : UserDb :=
  match db with
  | [] => []
  | x :: xs => if x.phoneNumber == ph then u :: xs else x :: updateUserByPhone xs ph u

/-- A persisted lead document with the fields set at creation
(src/routes/usersRoutes.js, lines 301-317); `note` is the single note's text. -/
structure LeadRec where
  name : String
  phone : String
  email : Option String
  city : String
  propertyId : String
  propertyName : String
  propertyUrl : String
  propertyInterest : String
  source : String
  status : String
  priority : String
  note : String
deriving DecidableEq

/-- The `user` object of the success response body (lines 358-367). -/
structure UserPayload where
  name : String
  phone : String
  phoneNumber : String
  city : String
  email : Option String
  isReturning : Bool
  isNew : Bool
deriving DecidableEq

/-- Observable outcome of one POST /verify-otp call: session store, user and
lead collections after the call, the HTTP response, and whether
`twoFactorService.verifyOTP` was invoked. -/
structure VerifyOutcome where
  store : Store
  users : UserDb
  leads : List LeadRec
  status : Nat
  success : Bool
  message : String
  userPayload : Option UserPayload
  gwCalled : Bool

/-- Tail of the verify-otp success path (lines 300-374): lead creation,
session deletion, token generation and the success response. A throw in
`lead.save()` or in token generation lands in the handler's catch block. -/
def finishVerify (req : VerifyReq) (session : Session) (st : Store)
    (users : UserDb) (leads : List LeadRec) (user : UserRec)
    (isNewUser isReturningUser : Bool) (leadSaveThrows tokenThrows : Bool) :
    VerifyOutcome :=
  if leadSaveThrows then
    ⟨st, users, leads, 500, false, "Failed to verify OTP. Please try again.", none, true⟩
  else
    let lead : LeadRec :=
      { name := user.name
        phone := session.phone
        email := user.email
        city := if user.city ≠ "" then user.city else if req.city ≠ "" then req.city else "Delhi"
        propertyId := req.propertyId
        propertyName := req.propertyName
        propertyUrl := req.propertyUrl
        propertyInterest := req.propertyName
        source := "website"
        status := "new"
        priority := "medium"
        note := "Lead captured via OTP verification from " ++
          (if req.source ≠ "" then req.source else "get_in_touch_otp") }
    let leads1 := leads ++ [lead]
    let st1 := storeDelete st req.sessionId
    if tokenThrows then
      ⟨st1, users, leads1, 500, false, "Failed to verify OTP. Please try again.", none, true⟩
    else
      ⟨st1, users, leads1, 200, true,
        (if isReturningUser then "Welcome back! You\x27re logged in."
         else "Account created successfully. Welcome!"),
        some ⟨user.name, session.phone, user.phoneNumber, user.city, user.email,
          isReturningUser, isNewUser⟩, true⟩

/-- The verify-otp success path after the gateway accepted the code (lines
253-374): mark the stored session verified, look up / upsert the user, then
hand over to `finishVerify`. A throw in `user.save()` (or the lookup) lands
in the catch block with the session still in the store. -/
def postVerification (now : Nat) (req : VerifyReq) (st : Store) (users : UserDb)
    (leads : List LeadRec) (session : Session)
    (userSaveThrows leadSaveThrows tokenThrows : Bool) : VerifyOutcome :=
  let session1 := { session with verified := true }
  let st1 := storeSet st req.sessionId session1
  match findUserByPhone users session.phoneNumber with
  | none =>
    if userSaveThrows then
      ⟨st1, users, leads, 500, false, "Failed to verify OTP. Please try again.",
        none, true⟩
    else
      let newUser : UserRec :=
        { name :=
            if req.name ≠ "" then req.name
            else if session.name ≠ "" then session.name else "User"
          phoneNumber := session.phoneNumber
          city := if req.city ≠ "" then req.city else "Delhi"
          email := none
          lastLogin := now }
      finishVerify req session st1 (users ++ [newUser]) leads newUser
        true false leadSaveThrows tokenThrows
  | some u =>
    let u1 :=
      if req.name ≠ "" ∧ req.name ≠ "User" ∧ u.name ≠ req.name
      then { u with name := req.name } else u
    let u2 :=
      if req.city ≠ "" ∧ u1.city ≠ req.city
      then { u1 with city := req.city } else u1
    let u3 := { u2 with lastLogin := now }
    if userSaveThrows then
      ⟨st1, users, leads, 500, false, "Failed to verify OTP. Please try again.",
        none, true⟩
    else
      finishVerify req session st1 (updateUserByPhone users session.phoneNumber u3)
        leads u3 false true leadSaveThrows tokenThrows

/-- The POST /verify-otp handler. `gwSuccess` is `result.success` of the
awaited `twoFactorService.verifyOTP(sessionId, otp)`; `userSaveThrows`,
`leadSaveThrows` and `tokenThrows` say whether the corresponding persistence /
token step throws (landing in the catch block, lines 376-382). -/
def verifyOtp (now : Nat) (req : VerifyReq) (st : Store) (users : UserDb)
    (leads : List LeadRec) (gwSuccess : Bool)
    (userSaveThrows leadSaveThrows tokenThrows : Bool) : VerifyOutcome :=
  if req.sessionId = "" ∨ req.otp = "" then
    ⟨st, users, leads, 400, false, "Session ID and OTP are required", none, false⟩
  else
    match storeGet st req.sessionId with
    | none =>
      ⟨st, users, leads, 400, false,
        "Session expired or invalid. Please request a new OTP.", none, false⟩
    | some session =>
      if session.createdAt + 10 * 60 * 1000 < now then
        ⟨storeDelete st req.sessionId, users, leads, 400, false,
          "Session has expired. Please request a new OTP.", none, false⟩
      else if 3 ≤ session.attempts then
        ⟨storeDelete st req.sessionId, users, leads, 400, false,
          "Maximum attempts exceeded. Please request a new OTP.", none, false⟩
      else if gwSuccess = false then
        let session1 := { session with attempts := session.attempts + 1 }
        ⟨storeSet st req.sessionId session1, users, leads, 400, false,
          "Invalid OTP. " ++ toString (3 - session1.attempts) ++ " attempts remaining.",
          none, true⟩
      else
        postVerification now req st users leads session
          userSaveThrows leadSaveThrows tokenThrows

/-! ### Helper lemmas on the string operations -/

theorem digitsOnly_of_allDigits (s : String) (h : s.data.all Char.isDigit = true) :
    digitsOnly s = s := by
  have h2 : s.data.filter Char.isDigit = s.data :=
    List.filter_eq_self.mpr (fun a ha => List.all_eq_true.mp h a ha)
  cases s with
  | mk d =>
    simp only [digitsOnly] at *
    rw [h2]

theorem digitsOnly_plus_append (p : String) : digitsOnly ("+" ++ p) = digitsOnly p := by
  have hd : ("+" ++ p).data = '+' :: p.data := by
    rw [String.data_append]; rfl
  simp only [digitsOnly, hd, List.filter_cons]
  have : ('+').isDigit = false := by decide
  simp [this]

theorem allDigits_91_append (p : String) (h : p.data.all Char.isDigit = true) :
    ("91" ++ p).data.all Char.isDigit = true := by
  have hd : ("91" ++ p).data = '9' :: '1' :: p.data := by
    rw [String.data_append]; rfl
  simp [hd, List.all_eq_true] at *
  exact h

theorem jsStartsWith_91_append (p : String) : jsStartsWith ("91" ++ p) "91" = true := by
  have hd : ("91" ++ p).data = '9' :: '1' :: p.data := by
    rw [String.data_append]; rfl
  have hq : ("91" : String).data = ['9', '1'] := rfl
  simp [jsStartsWith, hd, hq, List.take]

theorem jsStartsWith_plus_false_of_allDigits (s : String)
    (h : s.data.all Char.isDigit = true) : jsStartsWith s "+" = false := by
  have hq : ("+" : String).data = ['+'] := rfl
  simp only [jsStartsWith, hq, List.length_cons, List.length_nil]
  cases hs : s.data with
  | nil => simp
  | cons c cs =>
    have hc : c.isDigit = true := List.all_eq_true.mp h c (by rw [hs]; exact List.mem_cons_self c cs)
    have hne : c ≠ '+' := by
      intro hEq; rw [hEq] at hc; exact absurd hc (by decide)
    simp [List.take, hne]

theorem plus_91_merge (q : String) : ("+" ++ ("91" ++ q) : String) = "+91" ++ q := by
  rw [← String.append_assoc]
  have h : ("+" ++ "91" : String) = "+91" := by decide
  rw [h]

/-! ### Claims C3 and C10: the two phone formats -/

/-- C10: on every string made only of decimal digits, the storage form
`formatPhoneNumber` is exactly the character `+` prepended to the API form
`formatPhoneForAPI`: both agree on the digits and differ only in the
leading `+`. -/
theorem formatPhoneNumber_eq_plus_api (x : String)
    (h : x.data.all Char.isDigit = true) :
    formatPhoneNumber x = "+" ++ formatPhoneForAPI x := by
  have hco : digitsOnly x = x := digitsOnly_of_allDigits x h
  have hplus : jsStartsWith x "+" = false := jsStartsWith_plus_false_of_allDigits x h
  simp only [formatPhoneNumber, formatPhoneForAPI, hco]
  cases h91 : jsStartsWith x "91" with
  | true => simp [h91]
  | false =>
    by_cases hlen : x.length = 10
    · simp [h91, hlen, plus_91_merge]
    · simp [h91, hlen, hplus]

/-- Witness for C10 at the concrete digit string "9876543210". -/
theorem formatPhoneNumber_eq_plus_api_witness :
    ("9876543210" : String).data.all Char.isDigit = true ∧
    formatPhoneNumber "9876543210" = "+" ++ formatPhoneForAPI "9876543210" :=
  ⟨by decide, formatPhoneNumber_eq_plus_api "9876543210" (by decide)⟩

/-- C3, counterexample: "9123456789" is a valid 10-digit phone string, yet
`formatPhoneForAPI` does not return it prefixed with the country code "91"
(and `formatPhoneNumber` does not return "+91" plus the digits): because the
digits happen to begin with "91", both functions treat the number as already
country-coded and pass it through. -/
theorem formatPhoneForAPI_91_leading_passthrough :
    ("9123456789" : String).length = 10 ∧
    ("9123456789" : String).data.all Char.isDigit = true ∧
    formatPhoneForAPI "9123456789" ≠ "919123456789" ∧
    formatPhoneNumber "9123456789" ≠ "+919123456789" := by decide

/-- C3, amended: for every 10-digit phone string whose digits do NOT begin
with "91", `formatPhoneForAPI` returns the digits prefixed with "91" (all
digits, hence no `+`) and `formatPhoneNumber` returns the same digits prefixed
with "+91"; a 10-digit string beginning with "91" is passed through by
`formatPhoneForAPI` and merely gets a leading `+` from `formatPhoneNumber`.
In either case the API form consists only of digits, and both functions are
idempotent on their own output. -/
theorem phone_format_forms (p : String) (hlen : p.length = 10)
    (hdig : p.data.all Char.isDigit = true) :
    (jsStartsWith p "91" = false →
      formatPhoneForAPI p = "91" ++ p ∧ formatPhoneNumber p = "+91" ++ p) ∧
    (jsStartsWith p "91" = true →
      formatPhoneForAPI p = p ∧ formatPhoneNumber p = "+" ++ p) ∧
    (formatPhoneForAPI p).data.all Char.isDigit = true ∧
    formatPhoneForAPI (formatPhoneForAPI p) = formatPhoneForAPI p ∧
    formatPhoneNumber (formatPhoneNumber p) = formatPhoneNumber p := by
  have hco : digitsOnly p = p := digitsOnly_of_allDigits p hdig
  have hapi : formatPhoneForAPI p = if jsStartsWith p "91" then p else "91" ++ p := by
    simp only [formatPhoneForAPI, hco, hlen]
    cases h91 : jsStartsWith p "91" <;> simp
  have hnum : formatPhoneNumber p = if jsStartsWith p "91" then "+" ++ p else "+91" ++ p := by
    simp only [formatPhoneNumber, hco, hlen]
    cases h91 : jsStartsWith p "91" <;> simp
  cases h91 : jsStartsWith p "91" with
  | true =>
    refine ⟨by simp [h91], fun _ => ⟨by simp [hapi, h91], by simp [hnum, h91]⟩, ?_, ?_, ?_⟩
    · simpa [hapi, h91] using hdig
    · simp [hapi, h91]
    · simp only [hnum, h91, if_true]
      simp [formatPhoneNumber, digitsOnly_plus_append, hco, h91]
  | false =>
    have hall : ("91" ++ p).data.all Char.isDigit = true := allDigits_91_append p hdig
    have hco2 : digitsOnly ("91" ++ p) = "91" ++ p := digitsOnly_of_allDigits _ hall
    have hs91 : jsStartsWith ("91" ++ p) "91" = true := jsStartsWith_91_append p
    refine ⟨fun _ => ⟨by simp [hapi, h91], by simp [hnum, h91]⟩, by simp [h91], ?_, ?_, ?_⟩
    · simpa [hapi, h91] using hall
    · simp only [hapi, h91]
      simp [formatPhoneForAPI, hco2, hs91]
    · simp only [hnum, h91]
      simp only [Bool.false_eq_true, if_false]
      rw [← plus_91_merge]
      simp [formatPhoneNumber, digitsOnly_plus_append, hco2, hs91]

/-- Witness for the amended C3 at the concrete phone "9876543210". -/
theorem phone_format_forms_witness :
    ("9876543210" : String).length = 10 ∧
    ("9876543210" : String).data.all Char.isDigit = true ∧
    ((jsStartsWith "9876543210" "91" = false →
      formatPhoneForAPI "9876543210" = "91" ++ "9876543210" ∧
      formatPhoneNumber "9876543210" = "+91" ++ "9876543210") ∧
    (jsStartsWith "9876543210" "91" = true →
      formatPhoneForAPI "9876543210" = "9876543210" ∧
      formatPhoneNumber "9876543210" = "+" ++ "9876543210") ∧
    (formatPhoneForAPI "9876543210").data.all Char.isDigit = true ∧
    formatPhoneForAPI (formatPhoneForAPI "9876543210") = formatPhoneForAPI "9876543210" ∧
    formatPhoneNumber (formatPhoneNumber "9876543210") = formatPhoneNumber "9876543210") :=
  ⟨by decide, by decide, phone_format_forms "9876543210" (by decide) (by decide)⟩

/-! ### Helper lemmas on the session store -/

theorem storeGet_storeSet_self (st : Store) (k : String) (v : Session) :
    storeGet (storeSet st k v) k = some v := by
  simp [storeGet, storeSet]

theorem storeGet_storeSet_ne (st : Store) (k q : String) (v : Session) (h : q ≠ k) :
    storeGet (storeSet st k v) q = storeGet st q := by
  simp [storeGet, storeSet, h]

theorem storeGet_storeDelete_self (st : Store) (k : String) :
    storeGet (storeDelete st k) k = none := by
  simp [storeGet, storeDelete]

theorem storeGet_storeDelete_ne (st : Store) (k q : String) (h : q ≠ k) :
    storeGet (storeDelete st k) q = storeGet st q := by
  simp [storeGet, storeDelete, h]

/-! ### Branch lemmas for the verify-otp handler -/

theorem verifyOtp_expired_eq (now : Nat) (req : VerifyReq) (st : Store) (users : UserDb)
    (leads : List LeadRec) (s : Session) (gw uT lT tT : Bool)
    (hsid : req.sessionId ≠ "") (hotp : req.otp ≠ "")
    (hget : storeGet st req.sessionId = some s)
    (hexp : s.createdAt + 10 * 60 * 1000 < now) :
    verifyOtp now req st users leads gw uT lT tT =
      ⟨storeDelete st req.sessionId, users, leads, 400, false,
        "Session has expired. Please request a new OTP.", none, false⟩ := by
  simp only [verifyOtp]
  rw [if_neg (by simp [hsid, hotp])]
  simp only [hget]
  rw [if_pos hexp]

theorem verifyOtp_maxAttempts_eq (now : Nat) (req : VerifyReq) (st : Store) (users : UserDb)
    (leads : List LeadRec) (s : Session) (gw uT lT tT : Bool)
    (hsid : req.sessionId ≠ "") (hotp : req.otp ≠ "")
    (hget : storeGet st req.sessionId = some s)
    (hexp : ¬ s.createdAt + 10 * 60 * 1000 < now)
    (hatt : 3 ≤ s.attempts) :
    verifyOtp now req st users leads gw uT lT tT =
      ⟨storeDelete st req.sessionId, users, leads, 400, false,
        "Maximum attempts exceeded. Please request a new OTP.", none, false⟩ := by
  simp only [verifyOtp]
  rw [if_neg (by simp [hsid, hotp])]
  simp only [hget]
  rw [if_neg hexp, if_pos hatt]

theorem verifyOtp_gwFail_eq (now : Nat) (req : VerifyReq) (st : Store) (users : UserDb)
    (leads : List LeadRec) (s : Session) (uT lT tT : Bool)
    (hsid : req.sessionId ≠ "") (hotp : req.otp ≠ "")
    (hget : storeGet st req.sessionId = some s)
    (hexp : ¬ s.createdAt + 10 * 60 * 1000 < now)
    (hatt : s.attempts < 3) :
    verifyOtp now req st users leads false uT lT tT =
      ⟨storeSet st req.sessionId { s with attempts := s.attempts + 1 }, users, leads,
        400, false,
        "Invalid OTP. " ++ toString (3 - (s.attempts + 1)) ++ " attempts remaining.",
        none, true⟩ := by
  simp only [verifyOtp]
  rw [if_neg (by simp [hsid, hotp])]
  simp only [hget]
  rw [if_neg hexp, if_neg (by omega)]
  simp

theorem verifyOtp_gwSuccess_eq (now : Nat) (req : VerifyReq) (st : Store) (users : UserDb)
    (leads : List LeadRec) (s : Session) (uT lT tT : Bool)
    (hsid : req.sessionId ≠ "") (hotp : req.otp ≠ "")
    (hget : storeGet st req.sessionId = some s)
    (hexp : ¬ s.createdAt + 10 * 60 * 1000 < now)
    (hatt : s.attempts < 3) :
    verifyOtp now req st users leads true uT lT tT =
      postVerification now req st users leads s uT lT tT := by
  simp only [verifyOtp]
  rw [if_neg (by simp [hsid, hotp])]
  simp only [hget]
  rw [if_neg hexp, if_neg (by omega)]
  simp

theorem sweepOld_sub (now : Nat) (st : Store) (k : String) (s2 : Session)
    (h : storeGet (sweepOld now st) k = some s2) : storeGet st k = some s2 := by
  simp only [storeGet, sweepOld] at *
  cases hst : st k with
  | none => rw [hst] at h; exact absurd h (by simp)
  | some s =>
    rw [hst] at h
    by_cases hc : s.createdAt + 10 * 60 * 1000 < now
    · simp [hc] at h
    · simp [hc] at h; rw [h]

theorem sweepOld_get_fresh (now : Nat) (st : Store) (k : String) (s : Session)
    (h : storeGet st k = some s) (hfresh : ¬ s.createdAt + 10 * 60 * 1000 < now) :
    storeGet (sweepOld now st) k = some s := by
  simp only [storeGet, sweepOld] at *
  rw [h]
  simp [hfresh]

/-! ### Claim C1: attempt counting and the maximum-attempts cutoff -/

/-- C1, counterexample: starting from a fresh session, the THIRD consecutive
wrong-code verify call answers "Invalid OTP. 0 attempts remaining." — not
"Maximum attempts exceeded" — and the session is still in the store, with
attempts = 3. Deletion and the maximum-attempts message are left to a fourth
call, contradicting the claim that they happen on the third failure. -/
theorem third_failure_keeps_session :
    (verifyOtp 1000 ⟨"S1", "1234", "", "", "", "", "", ""⟩
      (verifyOtp 1000 ⟨"S1", "1234", "", "", "", "", "", ""⟩
      (verifyOtp 1000 ⟨"S1", "1234", "", "", "", "", "", ""⟩
      (storeSet emptyStore "S1"
        ⟨"+919876543210", "9876543210", "Bob", "Pune", "", "", "", 0, 0, false, "sms"⟩)
      [] [] false false false false).store
      [] [] false false false false).store
      [] [] false false false false).message = "Invalid OTP. 0 attempts remaining." ∧
    (verifyOtp 1000 ⟨"S1", "1234", "", "", "", "", "", ""⟩
      (verifyOtp 1000 ⟨"S1", "1234", "", "", "", "", "", ""⟩
      (verifyOtp 1000 ⟨"S1", "1234", "", "", "", "", "", ""⟩
      (storeSet emptyStore "S1"
        ⟨"+919876543210", "9876543210", "Bob", "Pune", "", "", "", 0, 0, false, "sms"⟩)
      [] [] false false false false).store
      [] [] false false false false).store
      [] [] false false false false).message ≠
        "Maximum attempts exceeded. Please request a new OTP." ∧
    storeGet (verifyOtp 1000 ⟨"S1", "1234", "", "", "", "", "", ""⟩
      (verifyOtp 1000 ⟨"S1", "1234", "", "", "", "", "", ""⟩
      (verifyOtp 1000 ⟨"S1", "1234", "", "", "", "", "", ""⟩
      (storeSet emptyStore "S1"
        ⟨"+919876543210", "9876543210", "Bob", "Pune", "", "", "", 0, 0, false, "sms"⟩)
      [] [] false false false false).store
      [] [] false false false false).store
      [] [] false false false false).store "S1" =
      some ⟨"+919876543210", "9876543210", "Bob", "Pune", "", "", "", 0, 3, false, "sms"⟩ := by
  decide

/-- C1, amended: each of the first three wrong-code verify calls against one
session increments the attempt counter by one and reports N attempts remaining
with N = 3 minus the new counter (so the third failure reports 0 remaining and
leaves the session stored with attempts = 3); the session is deleted and the
"Maximum attempts exceeded" message returned only on the NEXT (fourth) verify
call. -/
theorem verify_attempt_counting (t1 t2 t3 t4 : Nat) (req : VerifyReq)
    (st0 st1 st2 st3 : Store) (users : UserDb) (leads : List LeadRec) (s : Session)
    (hsid : req.sessionId ≠ "") (hotp : req.otp ≠ "")
    (hget : storeGet st0 req.sessionId = some s)
    (ha : s.attempts = 0)
    (h1 : ¬ s.createdAt + 10 * 60 * 1000 < t1)
    (h2 : ¬ s.createdAt + 10 * 60 * 1000 < t2)
    (h3 : ¬ s.createdAt + 10 * 60 * 1000 < t3)
    (h4 : ¬ s.createdAt + 10 * 60 * 1000 < t4)
    (hst1 : st1 = (verifyOtp t1 req st0 users leads false false false false).store)
    (hst2 : st2 = (verifyOtp t2 req st1 users leads false false false false).store)
    (hst3 : st3 = (verifyOtp t3 req st2 users leads false false false false).store) :
    (verifyOtp t1 req st0 users leads false false false false).message =
      "Invalid OTP. 2 attempts remaining." ∧
    (verifyOtp t2 req st1 users leads false false false false).message =
      "Invalid OTP. 1 attempts remaining." ∧
    (verifyOtp t3 req st2 users leads false false false false).message =
      "Invalid OTP. 0 attempts remaining." ∧
    storeGet st3 req.sessionId = some { s with attempts := 3 } ∧
    (verifyOtp t4 req st3 users leads false false false false).message =
      "Maximum attempts exceeded. Please request a new OTP." ∧
    storeGet (verifyOtp t4 req st3 users leads false false false false).store
      req.sessionId = none := by
  have e1 := verifyOtp_gwFail_eq t1 req st0 users leads s false false false
    hsid hotp hget h1 (by omega)
  have hs1 : storeGet st1 req.sessionId = some { s with attempts := s.attempts + 1 } := by
    rw [hst1, e1]
    exact storeGet_storeSet_self st0 req.sessionId _
  have e2 := verifyOtp_gwFail_eq t2 req st1 users leads { s with attempts := s.attempts + 1 }
    false false false hsid hotp hs1 h2 (by show s.attempts + 1 < 3; omega)
  have hs2 : storeGet st2 req.sessionId =
      some { s with attempts := s.attempts + 1 + 1 } := by
    rw [hst2, e2]
    exact storeGet_storeSet_self st1 req.sessionId _
  have e3 := verifyOtp_gwFail_eq t3 req st2 users leads
    { s with attempts := s.attempts + 1 + 1 }
    false false false hsid hotp hs2 h3 (by show s.attempts + 1 + 1 < 3; omega)
  have hs3 : storeGet st3 req.sessionId =
      some { s with attempts := s.attempts + 1 + 1 + 1 } := by
    rw [hst3, e3]
    exact storeGet_storeSet_self st2 req.sessionId _
  have e4 := verifyOtp_maxAttempts_eq t4 req st3 users leads
    { s with attempts := s.attempts + 1 + 1 + 1 } false false false false
    hsid hotp hs3 h4 (by show 3 ≤ s.attempts + 1 + 1 + 1; omega)
  refine ⟨?_, ?_, ?_, ?_, ?_, ?_⟩
  · rw [e1]
    show "Invalid OTP. " ++ toString (3 - (s.attempts + 1)) ++ " attempts remaining." = _
    rw [ha]
    decide
  · rw [e2]
    show "Invalid OTP. " ++ toString (3 - (s.attempts + 1 + 1)) ++ " attempts remaining." = _
    rw [ha]
    decide
  · rw [e3]
    show "Invalid OTP. " ++ toString (3 - (s.attempts + 1 + 1 + 1)) ++ " attempts remaining." = _
    rw [ha]
    decide
  · rw [ha] at hs3
    exact hs3
  · rw [e4]
  · rw [e4]
    exact storeGet_storeDelete_self st3 req.sessionId

/-- Witness for the amended C1 on a concrete session and request. -/
theorem verify_attempt_counting_witness :
    (verifyOtp 1000 ⟨"S1", "1234", "", "", "", "", "", ""⟩
      (storeSet emptyStore "S1"
        ⟨"+919876543210", "9876543210", "Bob", "Pune", "", "", "", 0, 0, false, "sms"⟩)
      [] [] false false false false).message = "Invalid OTP. 2 attempts remaining." ∧
    (verifyOtp 1000 ⟨"S1", "1234", "", "", "", "", "", ""⟩
      (verifyOtp 1000 ⟨"S1", "1234", "", "", "", "", "", ""⟩
      (storeSet emptyStore "S1"
        ⟨"+919876543210", "9876543210", "Bob", "Pune", "", "", "", 0, 0, false, "sms"⟩)
      [] [] false false false false).store
      [] [] false false false false).message = "Invalid OTP. 1 attempts remaining." ∧
    (verifyOtp 1000 ⟨"S1", "1234", "", "", "", "", "", ""⟩
      (verifyOtp 1000 ⟨"S1", "1234", "", "", "", "", "", ""⟩
      (verifyOtp 1000 ⟨"S1", "1234", "", "", "", "", "", ""⟩
      (storeSet emptyStore "S1"
        ⟨"+919876543210", "9876543210", "Bob", "Pune", "", "", "", 0, 0, false, "sms"⟩)
      [] [] false false false false).store
      [] [] false false false false).store
      [] [] false false false false).message = "Invalid OTP. 0 attempts remaining." ∧
    storeGet (verifyOtp 1000 ⟨"S1", "1234", "", "", "", "", "", ""⟩
      (verifyOtp 1000 ⟨"S1", "1234", "", "", "", "", "", ""⟩
      (verifyOtp 1000 ⟨"S1", "1234", "", "", "", "", "", ""⟩
      (storeSet emptyStore "S1"
        ⟨"+919876543210", "9876543210", "Bob", "Pune", "", "", "", 0, 0, false, "sms"⟩)
      [] [] false false false false).store
      [] [] false false false false).store
      [] [] false false false false).store "S1" =
      some ⟨"+919876543210", "9876543210", "Bob", "Pune", "", "", "", 0, 3, false, "sms"⟩ ∧
    (verifyOtp 1000 ⟨"S1", "1234", "", "", "", "", "", ""⟩
      (verifyOtp 1000 ⟨"S1", "1234", "", "", "", "", "", ""⟩
      (verifyOtp 1000 ⟨"S1", "1234", "", "", "", "", "", ""⟩
      (verifyOtp 1000 ⟨"S1", "1234", "", "", "", "", "", ""⟩
      (storeSet emptyStore "S1"
        ⟨"+919876543210", "9876543210", "Bob", "Pune", "", "", "", 0, 0, false, "sms"⟩)
      [] [] false false false false).store
      [] [] false false false false).store
      [] [] false false false false).store
      [] [] false false false false).message =
      "Maximum attempts exceeded. Please request a new OTP." ∧
    storeGet (verifyOtp 1000 ⟨"S1", "1234", "", "", "", "", "", ""⟩
      (verifyOtp 1000 ⟨"S1", "1234", "", "", "", "", "", ""⟩
      (verifyOtp 1000 ⟨"S1", "1234", "", "", "", "", "", ""⟩
      (verifyOtp 1000 ⟨"S1", "1234", "", "", "", "", "", ""⟩
      (storeSet emptyStore "S1"
        ⟨"+919876543210", "9876543210", "Bob", "Pune", "", "", "", 0, 0, false, "sms"⟩)
      [] [] false false false false).store
      [] [] false false false false).store
      [] [] false false false false).store
      [] [] false false false false).store "S1" = none :=
  verify_attempt_counting 1000 1000 1000 1000 ⟨"S1", "1234", "", "", "", "", "", ""⟩
    (storeSet emptyStore "S1"
      ⟨"+919876543210", "9876543210", "Bob", "Pune", "", "", "", 0, 0, false, "sms"⟩)
    (verifyOtp 1000 ⟨"S1", "1234", "", "", "", "", "", ""⟩
      (storeSet emptyStore "S1"
        ⟨"+919876543210", "9876543210", "Bob", "Pune", "", "", "", 0, 0, false, "sms"⟩)
      [] [] false false false false).store
    (verifyOtp 1000 ⟨"S1", "1234", "", "", "", "", "", ""⟩
      (verifyOtp 1000 ⟨"S1", "1234", "", "", "", "", "", ""⟩
      (storeSet emptyStore "S1"
        ⟨"+919876543210", "9876543210", "Bob", "Pune", "", "", "", 0, 0, false, "sms"⟩)
      [] [] false false false false).store
      [] [] false false false false).store
    (verifyOtp 1000 ⟨"S1", "1234", "", "", "", "", "", ""⟩
      (verifyOtp 1000 ⟨"S1", "1234", "", "", "", "", "", ""⟩
      (verifyOtp 1000 ⟨"S1", "1234", "", "", "", "", "", ""⟩
      (storeSet emptyStore "S1"
        ⟨"+919876543210", "9876543210", "Bob", "Pune", "", "", "", 0, 0, false, "sms"⟩)
      [] [] false false false false).store
      [] [] false false false false).store
      [] [] false false false false).store
    [] [] ⟨"+919876543210", "9876543210", "Bob", "Pune", "", "", "", 0, 0, false, "sms"⟩
    (by decide) (by decide) (by decide) (by decide)
    (by decide) (by decide) (by decide) (by decide)
    rfl rfl rfl

/-! ### Claim C2: session fate after a gateway-accepted verify -/

/-- C2, counterexample: the gateway accepts the code but `lead.save()` throws;
the handler answers 500 from its catch block and the session is STILL in the
store (now marked verified), contradicting the claim that after any
gateway-success verify call no session with that id remains. -/
theorem lead_save_throw_keeps_session :
    storeGet (verifyOtp 1000 ⟨"S1", "1234", "", "", "", "", "", ""⟩
      (storeSet emptyStore "S1"
        ⟨"+919876543210", "9876543210", "Bob", "Pune", "", "", "", 0, 0, false, "sms"⟩)
      [] [] true false true false).store "S1" =
      some ⟨"+919876543210", "9876543210", "Bob", "Pune", "", "", "", 0, 0, true, "sms"⟩ ∧
    (verifyOtp 1000 ⟨"S1", "1234", "", "", "", "", "", ""⟩
      (storeSet emptyStore "S1"
        ⟨"+919876543210", "9876543210", "Bob", "Pune", "", "", "", 0, 0, false, "sms"⟩)
      [] [] true false true false).status = 500 := by decide

/-- C2, amended: after a gateway-accepted verify call the session is deleted
exactly when the user-upsert and the lead-write both complete (a throw in the
later token step still leaves it deleted); if the user-upsert or the
lead-write throws, the handler returns from its catch block with the session
still in the store, marked verified. -/
theorem session_lifecycle_on_gateway_success (now : Nat) (req : VerifyReq) (st : Store)
    (users : UserDb) (leads : List LeadRec) (s : Session)
    (hsid : req.sessionId ≠ "") (hotp : req.otp ≠ "")
    (hget : storeGet st req.sessionId = some s)
    (hexp : ¬ s.createdAt + 10 * 60 * 1000 < now)
    (hatt : s.attempts < 3) :
    (∀ tT, storeGet (verifyOtp now req st users leads true false false tT).store
      req.sessionId = none) ∧
    (∀ lT tT, storeGet (verifyOtp now req st users leads true true lT tT).store
      req.sessionId = some { s with verified := true }) ∧
    (∀ tT, storeGet (verifyOtp now req st users leads true false true tT).store
      req.sessionId = some { s with verified := true }) := by
  refine ⟨fun tT => ?_, fun lT tT => ?_, fun tT => ?_⟩
  · rw [verifyOtp_gwSuccess_eq now req st users leads s false false tT hsid hotp hget hexp hatt]
    cases hfind : findUserByPhone users s.phoneNumber with
    | none =>
      simp only [postVerification, hfind, finishVerify]
      cases tT <;> simp [storeGet, storeDelete]
    | some u =>
      simp only [postVerification, hfind, finishVerify]
      cases tT <;> simp [storeGet, storeDelete]
  · rw [verifyOtp_gwSuccess_eq now req st users leads s true lT tT hsid hotp hget hexp hatt]
    cases hfind : findUserByPhone users s.phoneNumber with
    | none =>
      simp only [postVerification, hfind]
      simp [storeGet, storeSet]
    | some u =>
      simp only [postVerification, hfind]
      simp [storeGet, storeSet]
  · rw [verifyOtp_gwSuccess_eq now req st users leads s false true tT hsid hotp hget hexp hatt]
    cases hfind : findUserByPhone users s.phoneNumber with
    | none =>
      simp only [postVerification, hfind, finishVerify]
      simp [storeGet, storeSet]
    | some u =>
      simp only [postVerification, hfind, finishVerify]
      simp [storeGet, storeSet]

/-- Witness for the amended C2 on a concrete session, exercising the
no-throw, upsert-throw and lead-throw cases. -/
theorem session_lifecycle_on_gateway_success_witness :
    storeGet (verifyOtp 1000 ⟨"S1", "1234", "", "", "", "", "", ""⟩
      (storeSet emptyStore "S1"
        ⟨"+919876543210", "9876543210", "Bob", "Pune", "", "", "", 0, 0, false, "sms"⟩)
      [] [] true false false false).store "S1" = none ∧
    storeGet (verifyOtp 1000 ⟨"S1", "1234", "", "", "", "", "", ""⟩
      (storeSet emptyStore "S1"
        ⟨"+919876543210", "9876543210", "Bob", "Pune", "", "", "", 0, 0, false, "sms"⟩)
      [] [] true true false false).store "S1" =
      some ⟨"+919876543210", "9876543210", "Bob", "Pune", "", "", "", 0, 0, true, "sms"⟩ ∧
    storeGet (verifyOtp 1000 ⟨"S1", "1234", "", "", "", "", "", ""⟩
      (storeSet emptyStore "S1"
        ⟨"+919876543210", "9876543210", "Bob", "Pune", "", "", "", 0, 0, false, "sms"⟩)
      [] [] true false true false).store "S1" =
      some ⟨"+919876543210", "9876543210", "Bob", "Pune", "", "", "", 0, 0, true, "sms"⟩ :=
  ⟨(session_lifecycle_on_gateway_success 1000 ⟨"S1", "1234", "", "", "", "", "", ""⟩
      (storeSet emptyStore "S1"
        ⟨"+919876543210", "9876543210", "Bob", "Pune", "", "", "", 0, 0, false, "sms"⟩)
      [] [] ⟨"+919876543210", "9876543210", "Bob", "Pune", "", "", "", 0, 0, false, "sms"⟩
      (by decide) (by decide) (by decide) (by decide) (by decide)).1 false,
   (session_lifecycle_on_gateway_success 1000 ⟨"S1", "1234", "", "", "", "", "", ""⟩
      (storeSet emptyStore "S1"
        ⟨"+919876543210", "9876543210", "Bob", "Pune", "", "", "", 0, 0, false, "sms"⟩)
      [] [] ⟨"+919876543210", "9876543210", "Bob", "Pune", "", "", "", 0, 0, false, "sms"⟩
      (by decide) (by decide) (by decide) (by decide) (by decide)).2.1 false false,
   (session_lifecycle_on_gateway_success 1000 ⟨"S1", "1234", "", "", "", "", "", ""⟩
      (storeSet emptyStore "S1"
        ⟨"+919876543210", "9876543210", "Bob", "Pune", "", "", "", 0, 0, false, "sms"⟩)
      [] [] ⟨"+919876543210", "9876543210", "Bob", "Pune", "", "", "", 0, 0, false, "sms"⟩
      (by decide) (by decide) (by decide) (by decide) (by decide)).2.2 false⟩

/-! ### Claim C5: session expiry on verify -/

/-- C5, counterexample: a verify call made EXACTLY ten minutes after session
creation (now − createdAt = 600000 ms) is not treated as expired: the code
proceeds to the gateway and, on a wrong code, answers with the
attempts-remaining message and keeps the session. The claim's "≥ 10 minutes
(including exactly 10 minutes)" bound does not hold; the code's bound is
strict. -/
theorem verify_at_exact_boundary_not_expired :
    (verifyOtp 600000 ⟨"S1", "1234", "", "", "", "", "", ""⟩
      (storeSet emptyStore "S1"
        ⟨"+919876543210", "9876543210", "Bob", "Pune", "", "", "", 0, 0, false, "sms"⟩)
      [] [] false false false false).message = "Invalid OTP. 2 attempts remaining." ∧
    (verifyOtp 600000 ⟨"S1", "1234", "", "", "", "", "", ""⟩
      (storeSet emptyStore "S1"
        ⟨"+919876543210", "9876543210", "Bob", "Pune", "", "", "", 0, 0, false, "sms"⟩)
      [] [] false false false false).message ≠
        "Session has expired. Please request a new OTP." ∧
    storeGet (verifyOtp 600000 ⟨"S1", "1234", "", "", "", "", "", ""⟩
      (storeSet emptyStore "S1"
        ⟨"+919876543210", "9876543210", "Bob", "Pune", "", "", "", 0, 0, false, "sms"⟩)
      [] [] false false false false).store "S1" ≠ none := by decide

/-- C5, amended: for every verify call made STRICTLY more than ten minutes
after session creation (now − createdAt > 10 min), the call deletes the
session and returns the session-expired message with status 400, regardless
of code correctness (any gateway answer) and of any later step, and the
gateway verify is not invoked; at exactly ten minutes the session is still
usable. -/
theorem verify_expired_deletes (now : Nat) (req : VerifyReq) (st : Store)
    (users : UserDb) (leads : List LeadRec) (s : Session) (gw uT lT tT : Bool)
    (hsid : req.sessionId ≠ "") (hotp : req.otp ≠ "")
    (hget : storeGet st req.sessionId = some s)
    (hexp : s.createdAt + 10 * 60 * 1000 < now) :
    (verifyOtp now req st users leads gw uT lT tT).message =
      "Session has expired. Please request a new OTP." ∧
    (verifyOtp now req st users leads gw uT lT tT).status = 400 ∧
    storeGet (verifyOtp now req st users leads gw uT lT tT).store req.sessionId = none ∧
    (verifyOtp now req st users leads gw uT lT tT).gwCalled = false := by
  rw [verifyOtp_expired_eq now req st users leads s gw uT lT tT hsid hotp hget hexp]
  exact ⟨rfl, rfl, storeGet_storeDelete_self st req.sessionId, rfl⟩

/-- Witness for the amended C5, one millisecond past the ten-minute bound,
with a gateway that would have accepted the code. -/
theorem verify_expired_deletes_witness :
    (verifyOtp 600001 ⟨"S1", "1234", "", "", "", "", "", ""⟩
      (storeSet emptyStore "S1"
        ⟨"+919876543210", "9876543210", "Bob", "Pune", "", "", "", 0, 0, false, "sms"⟩)
      [] [] true false false false).message =
      "Session has expired. Please request a new OTP." ∧
    (verifyOtp 600001 ⟨"S1", "1234", "", "", "", "", "", ""⟩
      (storeSet emptyStore "S1"
        ⟨"+919876543210", "9876543210", "Bob", "Pune", "", "", "", 0, 0, false, "sms"⟩)
      [] [] true false false false).status = 400 ∧
    storeGet (verifyOtp 600001 ⟨"S1", "1234", "", "", "", "", "", ""⟩
      (storeSet emptyStore "S1"
        ⟨"+919876543210", "9876543210", "Bob", "Pune", "", "", "", 0, 0, false, "sms"⟩)
      [] [] true false false false).store "S1" = none ∧
    (verifyOtp 600001 ⟨"S1", "1234", "", "", "", "", "", ""⟩
      (storeSet emptyStore "S1"
        ⟨"+919876543210", "9876543210", "Bob", "Pune", "", "", "", 0, 0, false, "sms"⟩)
      [] [] true false false false).gwCalled = false :=
  verify_expired_deletes 600001 ⟨"S1", "1234", "", "", "", "", "", ""⟩
    (storeSet emptyStore "S1"
      ⟨"+919876543210", "9876543210", "Bob", "Pune", "", "", "", 0, 0, false, "sms"⟩)
    [] [] ⟨"+919876543210", "9876543210", "Bob", "Pune", "", "", "", 0, 0, false, "sms"⟩
    true false false false (by decide) (by decide) (by decide) (by decide)

/-! ### Claim C9: frame effect of a failed (but in-bounds) verify -/

/-- C9: on a verify call where the session exists, is not expired, has fewer
than three attempts, and the gateway rejects the code, the only change to the
session store is that this one session's attempts field grows by exactly one
(all its other fields kept, as expressed by the record update); every other
key of the store is unchanged, and the user and lead collections are
untouched. -/
theorem verify_failure_frame (now : Nat) (req : VerifyReq) (st : Store)
    (users : UserDb) (leads : List LeadRec) (s : Session) (uT lT tT : Bool)
    (hsid : req.sessionId ≠ "") (hotp : req.otp ≠ "")
    (hget : storeGet st req.sessionId = some s)
    (hexp : ¬ s.createdAt + 10 * 60 * 1000 < now)
    (hatt : s.attempts < 3) :
    storeGet (verifyOtp now req st users leads false uT lT tT).store req.sessionId =
      some { s with attempts := s.attempts + 1 } ∧
    (∀ k, k ≠ req.sessionId →
      storeGet (verifyOtp now req st users leads false uT lT tT).store k =
        storeGet st k) ∧
    (verifyOtp now req st users leads false uT lT tT).users = users ∧
    (verifyOtp now req st users leads false uT lT tT).leads = leads := by
  rw [verifyOtp_gwFail_eq now req st users leads s uT lT tT hsid hotp hget hexp hatt]
  exact ⟨storeGet_storeSet_self st req.sessionId _,
    fun k hk => storeGet_storeSet_ne st req.sessionId k _ hk, rfl, rfl⟩

/-- Witness for C9 on a concrete store with one session. -/
theorem verify_failure_frame_witness :
    storeGet (verifyOtp 1000 ⟨"S1", "1234", "", "", "", "", "", ""⟩
      (storeSet emptyStore "S1"
        ⟨"+919876543210", "9876543210", "Bob", "Pune", "", "", "", 0, 0, false, "sms"⟩)
      [] [] false false false false).store "S1" =
      some ⟨"+919876543210", "9876543210", "Bob", "Pune", "", "", "", 0, 1, false, "sms"⟩ ∧
    (∀ k, k ≠ "S1" →
      storeGet (verifyOtp 1000 ⟨"S1", "1234", "", "", "", "", "", ""⟩
        (storeSet emptyStore "S1"
          ⟨"+919876543210", "9876543210", "Bob", "Pune", "", "", "", 0, 0, false, "sms"⟩)
        [] [] false false false false).store k =
      storeGet (storeSet emptyStore "S1"
        ⟨"+919876543210", "9876543210", "Bob", "Pune", "", "", "", 0, 0, false, "sms"⟩) k) ∧
    (verifyOtp 1000 ⟨"S1", "1234", "", "", "", "", "", ""⟩
      (storeSet emptyStore "S1"
        ⟨"+919876543210", "9876543210", "Bob", "Pune", "", "", "", 0, 0, false, "sms"⟩)
      [] [] false false false false).users = [] ∧
    (verifyOtp 1000 ⟨"S1", "1234", "", "", "", "", "", ""⟩
      (storeSet emptyStore "S1"
        ⟨"+919876543210", "9876543210", "Bob", "Pune", "", "", "", 0, 0, false, "sms"⟩)
      [] [] false false false false).leads = [] :=
  verify_failure_frame 1000 ⟨"S1", "1234", "", "", "", "", "", ""⟩
    (storeSet emptyStore "S1"
      ⟨"+919876543210", "9876543210", "Bob", "Pune", "", "", "", 0, 0, false, "sms"⟩)
    [] [] ⟨"+919876543210", "9876543210", "Bob", "Pune", "", "", "", 0, 0, false, "sms"⟩
    false false false (by decide) (by decide) (by decide) (by decide) (by decide)

/-! ### Claim C7: identity upsert after successful verification -/

/-- C7, counterexample: a returning user stored with city "Mumbai" logs in
supplying city "Delhi", which is exactly the fixed fallback city (the default);
the code still overwrites the stored city with "Delhi", contradicting the
claim that city changes only when the caller supplied a NON-DEFAULT differing
value. -/
theorem upsert_city_overwritten_with_default :
    (verifyOtp 1000 ⟨"S1", "1234", "", "Delhi", "", "", "", ""⟩
      (storeSet emptyStore "S1"
        ⟨"+919876543210", "9876543210", "Bob", "Pune", "", "", "", 0, 0, false, "sms"⟩)
      [⟨"Alice", "+919876543210", "Mumbai", none, 5⟩] [] true false false false).users =
      [⟨"Alice", "+919876543210", "Delhi", none, 1000⟩] ∧
    ("Delhi" : String) ≠ "Mumbai" := by decide

/-- C7, amended: after a gateway-accepted verify with no persistence failure:
if no user exists for the session's phone number, exactly one user is
appended, named from the request name, else the session name, else "User",
with city from the request city else the fallback "Delhi" (the session city is
not consulted), no email, lastLogin = now, and flags isNew = true,
isReturning = false; if a user exists, the name changes only when the request
supplied a non-default ("User") value differing from the stored one, the city
changes whenever the request supplied ANY differing value — including the
default "Delhi" — lastLogin is always refreshed, and the flags are
isNew = false, isReturning = true. -/
theorem identity_upsert (now : Nat) (req : VerifyReq) (st : Store)
    (users : UserDb) (leads : List LeadRec) (s : Session) (u : UserRec)
    (hsid : req.sessionId ≠ "") (hotp : req.otp ≠ "")
    (hget : storeGet st req.sessionId = some s)
    (hexp : ¬ s.createdAt + 10 * 60 * 1000 < now)
    (hatt : s.attempts < 3) :
    (findUserByPhone users s.phoneNumber = none →
      (verifyOtp now req st users leads true false false false).users =
        users ++ [⟨(if req.name ≠ "" then req.name
                    else if s.name ≠ "" then s.name else "User"),
                   s.phoneNumber,
                   (if req.city ≠ "" then req.city else "Delhi"),
                   none, now⟩] ∧
      (verifyOtp now req st users leads true false false false).userPayload.map
        UserPayload.isNew = some true ∧
      (verifyOtp now req st users leads true false false false).userPayload.map
        UserPayload.isReturning = some false) ∧
    (findUserByPhone users s.phoneNumber = some u →
      (verifyOtp now req st users leads true false false false).users =
        updateUserByPhone users s.phoneNumber
          ⟨(if req.name ≠ "" ∧ req.name ≠ "User" ∧ u.name ≠ req.name
              then req.name else u.name),
           u.phoneNumber,
           (if req.city ≠ "" ∧ u.city ≠ req.city then req.city else u.city),
           u.email, now⟩ ∧
      (verifyOtp now req st users leads true false false false).userPayload.map
        UserPayload.isNew = some false ∧
      (verifyOtp now req st users leads true false false false).userPayload.map
        UserPayload.isReturning = some true) := by
  rw [verifyOtp_gwSuccess_eq now req st users leads s false false false
    hsid hotp hget hexp hatt]
  refine ⟨fun hfind => ?_, fun hfind => ?_⟩
  · simp only [postVerification, hfind, finishVerify]
    simp
  · simp only [postVerification, hfind, finishVerify]
    by_cases hc1 : req.name ≠ "" ∧ req.name ≠ "User" ∧ u.name ≠ req.name
    · by_cases hc2 : req.city ≠ "" ∧ u.city ≠ req.city
      · simp [hc1, hc2]
      · simp [hc1, hc2]
    · by_cases hc2 : req.city ≠ "" ∧ u.city ≠ req.city
      · simp [hc1, hc2]
      · simp [hc1, hc2]

/-- Witness for the amended C7: first verification for a phone creates the
user with the session name, the fallback city, and the new/returning flags. -/
theorem identity_upsert_witness :
    findUserByPhone [] "+919876543210" = none ∧
    ((verifyOtp 1000 ⟨"S1", "1234", "", "", "", "", "", ""⟩
      (storeSet emptyStore "S1"
        ⟨"+919876543210", "9876543210", "Bob", "Pune", "", "", "", 0, 0, false, "sms"⟩)
      [] [] true false false false).users =
        [] ++ [⟨(if ("" : String) ≠ "" then ""
                  else if ("Bob" : String) ≠ "" then "Bob" else "User"),
                "+919876543210",
                (if ("" : String) ≠ "" then "" else "Delhi"),
                none, 1000⟩] ∧
      (verifyOtp 1000 ⟨"S1", "1234", "", "", "", "", "", ""⟩
        (storeSet emptyStore "S1"
          ⟨"+919876543210", "9876543210", "Bob", "Pune", "", "", "", 0, 0, false, "sms"⟩)
        [] [] true false false false).userPayload.map UserPayload.isNew = some true ∧
      (verifyOtp 1000 ⟨"S1", "1234", "", "", "", "", "", ""⟩
        (storeSet emptyStore "S1"
          ⟨"+919876543210", "9876543210", "Bob", "Pune", "", "", "", 0, 0, false, "sms"⟩)
        [] [] true false false false).userPayload.map UserPayload.isReturning = some false) :=
  ⟨rfl,
    (identity_upsert 1000 ⟨"S1", "1234", "", "", "", "", "", ""⟩
      (storeSet emptyStore "S1"
        ⟨"+919876543210", "9876543210", "Bob", "Pune", "", "", "", 0, 0, false, "sms"⟩)
      [] [] ⟨"+919876543210", "9876543210", "Bob", "Pune", "", "", "", 0, 0, false, "sms"⟩
      ⟨"User", "", "", none, 0⟩
      (by decide) (by decide) (by decide) (by decide) (by decide)).1 rfl⟩

/-! ### Claim C4: phone validation on send-otp -/

/-- C4, counterexample: "abcdefghij" has length 10 but contains no digit at
all; the send handler does NOT reject it — it reaches the gateway call and,
when the gateway accepts, creates a session — contradicting the claim that
every phone that is not exactly 10 decimal digits gets a 400 with no gateway
call and no session. The handler checks only the length. -/
theorem send_accepts_ten_nondigit_chars :
    ("abcdefghij" : String).length = 10 ∧
    ("abcdefghij" : String).data.all Char.isDigit = false ∧
    (sendOtpRoute 0 ⟨"abcdefghij", "", "", "", "", ""⟩ emptyStore
      ⟨true, "GW1", "", "sms", "+91abcdefghij", false, ""⟩).gatewayCalled = true ∧
    (sendOtpRoute 0 ⟨"abcdefghij", "", "", "", "", ""⟩ emptyStore
      ⟨true, "GW1", "", "sms", "+91abcdefghij", false, ""⟩).status = 200 ∧
    storeGet (sendOtpRoute 0 ⟨"abcdefghij", "", "", "", "", ""⟩ emptyStore
      ⟨true, "GW1", "", "sms", "+91abcdefghij", false, ""⟩).store "GW1" ≠ none := by
  decide

/-- C4, amended: the send handler validates only presence and length: for
every request whose phone field is missing/empty or whose length is not
exactly 10 (characters, digits or not), it returns a 400 with the validation
message, makes no gateway call and leaves the session store unchanged;
10-character phones containing non-digits are not rejected. -/
theorem send_phone_validation (now : Nat) (req : SendReq) (st : Store)
    (result : SendOtpResult)
    (h : req.phone = "" ∨ req.phone.length ≠ 10) :
    (sendOtpRoute now req st result).status = 400 ∧
    (sendOtpRoute now req st result).success = false ∧
    (sendOtpRoute now req st result).message =
      "Please provide a valid 10-digit phone number" ∧
    (sendOtpRoute now req st result).gatewayCalled = false ∧
    (sendOtpRoute now req st result).store = st := by
  unfold sendOtpRoute
  rw [if_pos h]
  exact ⟨rfl, rfl, rfl, rfl, rfl⟩

/-- Witness for the amended C4 at the three-character phone "123". -/
theorem send_phone_validation_witness :
    (("123" : String) = "" ∨ ("123" : String).length ≠ 10) ∧
    ((sendOtpRoute 0 ⟨"123", "", "", "", "", ""⟩ emptyStore
      ⟨true, "GW1", "", "sms", "+91123", false, ""⟩).status = 400 ∧
    (sendOtpRoute 0 ⟨"123", "", "", "", "", ""⟩ emptyStore
      ⟨true, "GW1", "", "sms", "+91123", false, ""⟩).success = false ∧
    (sendOtpRoute 0 ⟨"123", "", "", "", "", ""⟩ emptyStore
      ⟨true, "GW1", "", "sms", "+91123", false, ""⟩).message =
      "Please provide a valid 10-digit phone number" ∧
    (sendOtpRoute 0 ⟨"123", "", "", "", "", ""⟩ emptyStore
      ⟨true, "GW1", "", "sms", "+91123", false, ""⟩).gatewayCalled = false ∧
    (sendOtpRoute 0 ⟨"123", "", "", "", "", ""⟩ emptyStore
      ⟨true, "GW1", "", "sms", "+91123", false, ""⟩).store = emptyStore) :=
  ⟨by decide, send_phone_validation 0 ⟨"123", "", "", "", "", ""⟩ emptyStore
    ⟨true, "GW1", "", "sms", "+91123", false, ""⟩ (by decide)⟩

/-! ### Claim C8: session creation on send-otp -/

/-- C8: when the gateway accepts a send-OTP request (valid phone), exactly one
session is stored under the gateway-issued session id, starting with
attempts = 0 and verified = false (and createdAt = now, so the sweep cannot
remove it); any session found under another key after the call was already
there before (the opportunistic sweep can only delete). When the gateway
reports failure, the store is unchanged and the handler answers 500. -/
theorem send_creates_single_session (now : Nat) (req : SendReq) (st : Store)
    (result : SendOtpResult)
    (hp : req.phone ≠ "") (hlen : req.phone.length = 10) :
    (result.success = true →
      (sendOtpRoute now req st result).status = 200 ∧
      (sendOtpRoute now req st result).sessionIdOut = some result.sessionId ∧
      storeGet (sendOtpRoute now req st result).store result.sessionId =
        some ⟨(if result.dbFormattedPhone ≠ "" then result.dbFormattedPhone
                else "+91" ++ req.phone),
              req.phone, req.name, req.city, req.propertyId, req.propertyName,
              req.propertyUrl, now, 0, false,
              (if result.type ≠ "" then result.type else "sms")⟩ ∧
      (∀ k, k ≠ result.sessionId → ∀ s2,
        storeGet (sendOtpRoute now req st result).store k = some s2 →
        storeGet st k = some s2)) ∧
    (result.success = false →
      (sendOtpRoute now req st result).store = st ∧
      (sendOtpRoute now req st result).status = 500) := by
  have hval : ¬ (req.phone = "" ∨ req.phone.length ≠ 10) := by simp [hp, hlen]
  refine ⟨fun hs => ?_, fun hs => ?_⟩
  · simp only [sendOtpRoute]
    rw [if_neg hval, if_pos hs]
    refine ⟨rfl, rfl, ?_, ?_⟩
    · exact sweepOld_get_fresh now _ result.sessionId _
        (storeGet_storeSet_self st result.sessionId _)
        (by show ¬ now + 10 * 60 * 1000 < now; omega)
    · intro k hk s2 hsome
      have hsub := sweepOld_sub now _ k s2 hsome
      rwa [storeGet_storeSet_ne st result.sessionId k _ hk] at hsub
  · simp only [sendOtpRoute]
    rw [if_neg hval, if_neg (by simp [hs])]
    exact ⟨rfl, rfl⟩

/-- Witness for C8 on a concrete accepted send. -/
theorem send_creates_single_session_witness :
    ("9876543210" : String) ≠ "" ∧
    ("9876543210" : String).length = 10 ∧
    ((sendOtpRoute 0 ⟨"9876543210", "Bob", "Pune", "", "", ""⟩ emptyStore
      ⟨true, "GW1", "", "sms", "+919876543210", false, ""⟩).status = 200 ∧
    (sendOtpRoute 0 ⟨"9876543210", "Bob", "Pune", "", "", ""⟩ emptyStore
      ⟨true, "GW1", "", "sms", "+919876543210", false, ""⟩).sessionIdOut = some "GW1" ∧
    storeGet (sendOtpRoute 0 ⟨"9876543210", "Bob", "Pune", "", "", ""⟩ emptyStore
      ⟨true, "GW1", "", "sms", "+919876543210", false, ""⟩).store "GW1" =
      some ⟨(if ("+919876543210" : String) ≠ "" then "+919876543210"
              else "+91" ++ "9876543210"),
            "9876543210", "Bob", "Pune", "", "", "", 0, 0, false,
            (if ("sms" : String) ≠ "" then "sms" else "sms")⟩ ∧
    (∀ k, k ≠ "GW1" → ∀ s2,
      storeGet (sendOtpRoute 0 ⟨"9876543210", "Bob", "Pune", "", "", ""⟩ emptyStore
        ⟨true, "GW1", "", "sms", "+919876543210", false, ""⟩).store k = some s2 →
      storeGet emptyStore k = some s2)) :=
  ⟨by decide, by decide,
    (send_creates_single_session 0 ⟨"9876543210", "Bob", "Pune", "", "", ""⟩ emptyStore
      ⟨true, "GW1", "", "sms", "+919876543210", false, ""⟩
      (by decide) (by decide)).1 rfl⟩

/-! ### Claim C6: SMS first, voice fallback, combined error -/

/-- C6: `sendOTP` first attempts SMS; on SMS success it reports success with
the SMS session id and channel "sms", having called only SMS; on any SMS
failure it makes exactly one voice attempt to the same destination number and,
if that succeeds, reports success with the voice session id and channel
"voice"; only when BOTH fail does it report failure, with the combined error
message naming the SMS failure reason and the voice failure reason. -/
theorem sendOTP_sms_voice_fallback (phoneNumber : String) (smsCall voiceCall : GwCall)
    (h : phoneNumber ≠ "") :
    ((sendSMSOTP smsCall).success = true →
      sendOTP phoneNumber smsCall voiceCall =
        (⟨true, (sendSMSOTP smsCall).sessionId, "SMS OTP sent successfully", "sms",
          formatPhoneNumber phoneNumber, false, ""⟩,
         [("sms", formatPhoneForAPI phoneNumber)])) ∧
    ((sendSMSOTP smsCall).success = false → (sendVoiceOTP voiceCall).success = true →
      sendOTP phoneNumber smsCall voiceCall =
        (⟨true, (sendVoiceOTP voiceCall).sessionId,
          "Unable to send SMS OTP. Voice OTP has been sent to your number.", "voice",
          formatPhoneNumber phoneNumber, true, ""⟩,
         [("sms", formatPhoneForAPI phoneNumber),
          ("voice", formatPhoneForAPI phoneNumber)])) ∧
    ((sendSMSOTP smsCall).success = false → (sendVoiceOTP voiceCall).success = false →
      sendOTP phoneNumber smsCall voiceCall =
        (⟨false, "", "", "", "", false,
          "Unable to send OTP. SMS error: " ++ (sendSMSOTP smsCall).error ++
            ". Voice error: " ++ (sendVoiceOTP voiceCall).error⟩,
         [("sms", formatPhoneForAPI phoneNumber),
          ("voice", formatPhoneForAPI phoneNumber)])) := by
  refine ⟨fun h1 => ?_, fun h1 h2 => ?_, fun h1 h2 => ?_⟩
  · simp only [sendOTP]
    rw [if_neg h, if_pos h1]
  · simp only [sendOTP]
    rw [if_neg h, if_neg (by simp [h1]), if_pos h2]
  · simp only [sendOTP]
    rw [if_neg h, if_neg (by simp [h1]), if_neg (by simp [h2])]

/-- Witness for C6: SMS times out, voice succeeds, the result carries the
voice session id and channel "voice" and both calls went to the same
destination. -/
theorem sendOTP_sms_voice_fallback_witness :
    ("+919876543210" : String) ≠ "" ∧
    (sendSMSOTP (GwCall.err "" "timeout")).success = false ∧
    (sendVoiceOTP (GwCall.ok ⟨"Success", "VSESS"⟩)).success = true ∧
    sendOTP "+919876543210" (GwCall.err "" "timeout") (GwCall.ok ⟨"Success", "VSESS"⟩) =
      (⟨true, (sendVoiceOTP (GwCall.ok ⟨"Success", "VSESS"⟩)).sessionId,
        "Unable to send SMS OTP. Voice OTP has been sent to your number.", "voice",
        formatPhoneNumber "+919876543210", true, ""⟩,
       [("sms", formatPhoneForAPI "+919876543210"),
        ("voice", formatPhoneForAPI "+919876543210")]) :=
  ⟨by decide, by decide, by decide,
    (sendOTP_sms_voice_fallback "+919876543210" (GwCall.err "" "timeout")
      (GwCall.ok ⟨"Success", "VSESS"⟩) (by decide)).2.1 (by decide) (by decide)⟩
